import Mathlib

/-!
Shallow embedding of the repository health-scoring engine of
GitHub-Repository-Health-Analyzer (src/scorer.js), together with the signal
shapes produced by src/github-client.js.  The engine is modelled as a pure
function from a fully pre-fetched `SignalBundle` (plus the clock-derived
recency thresholds that `calculateStabilityScore` computes from `new Date()`)
to a `HealthReport`.
-/

namespace HealthAnalyzer

/-- JS `Math.round` on the nonnegative exact values occurring in the scorer:
round half toward positive infinity, `⌊q + 1/2⌋`. -/
def jsRound (q : ℚ) : ℤ := ⌊q + 1/2⌋

/-- JS `String.prototype.toLowerCase()`, characterwise. -/
def jsToLower (s : String) : String := ⟨s.data.map Char.toLower⟩

/-- JS `String.prototype.includes(pat)`: some index of `s` starts an
occurrence of `pat`. -/
def jsIncludes (s pat : String) : Bool :=
  (List.range (s.data.length + 1)).any (fun i => pat.data.isPrefixOf (s.data.drop i))

/-- The `LICENSE_SCORES` object of src/scorer.js, as a lookup on the
(lowercased) key; `none` models a key absent from the object. -/
def LICENSE_SCORES (key : String) : Option Nat :=
  match key with
  | "mit" => some 100
  | "apache-2.0" => some 100
  | "bsd-2-clause" => some 100
  | "bsd-3-clause" => some 100
  | "isc" => some 100
  | "unlicense" => some 90
  | "cc0-1.0" => some 90
  | "wtfpl" => some 85
  | "lgpl-2.1" => some 70
  | "lgpl-3.0" => some 70
  | "mpl-2.0" => some 75
  | "gpl-2.0" => some 50
  | "gpl-3.0" => some 50
  | "agpl-3.0" => some 40
  | "other" => some 30
  | "none" => some 20
  | _ => none

structure LicenseRisk where
  score : Nat
  risk : String
deriving DecidableEq

/-- The label banding at the end of `getLicenseRisk`: the resolved score is
returned together with a label derived from it (≥85 Low, ≥60 Medium,
otherwise High). -/
def bandLicense (score : Nat) : LicenseRisk :=
  if score ≥ 85 then { score := score, risk := "🟢 Low (Permissive)" }
  else if score ≥ 60 then { score := score, risk := "🟡 Medium (Copyleft)" }
  else { score := score, risk := "🔴 High (Restrictive)" }

/-- `getLicenseRisk(licenseKey)` from src/scorer.js.  A JS-falsy key (null,
undefined, or the empty string) takes the no-license branch; otherwise the
lowercased key is looked up with default 50 (`?? 50`) and the label is banded
from the resolved score. -/
def getLicenseRisk (licenseKey : Option String) : LicenseRisk :=
  match licenseKey with
  | none => { score := 20, risk := "🔴 High (No License)" }
  | some k =>
    if k = "" then { score := 20, risk := "🔴 High (No License)" }
    else bandLicense ((LICENSE_SCORES (jsToLower k)).getD 50)

/-- The slice of the GitHub repository metadata object (`repoData`) that
src/scorer.js reads.  `license_spdx_id` and `license_name` model
`repoData.license?.spdx_id` and `repoData.license?.name` (a null license or a
null field collapses to `none`); `pushed_at` is the last-push instant as a
numeric timestamp, as compared by `new Date(repoData.pushed_at)`. -/
structure RepoData where
  description : Option String
  license_spdx_id : Option String
  license_name : Option String
  pushed_at : Int
  stargazers_count : Nat
  forks_count : Nat
  subscribers_count : Nat
  has_wiki : Bool
deriving DecidableEq

/-- Shape returned by `getReadme` in src/github-client.js: a missing README
yields `{exists: false, content: '', length: 0}`. -/
structure ReadmeInfo where
  exists_ : Bool
  content : String
  length : Nat
deriving DecidableEq

/-- Shape returned by `getReleases` in src/github-client.js. -/
structure ReleasesInfo where
  exists_ : Bool
  count : Nat
  latest : Option String
deriving DecidableEq

/-- Shape returned by `getTags` in src/github-client.js. -/
structure TagsInfo where
  exists_ : Bool
  count : Nat
deriving DecidableEq

/-- Shape returned by `getWorkflows` in src/github-client.js. -/
structure WorkflowsInfo where
  exists_ : Bool
  count : Nat
deriving DecidableEq

/-- Shape returned by `getIssueStats` in src/github-client.js; `ratio` is the
already-rounded close percentage (0 when there are no issues). -/
structure IssueStats where
  open_ : Nat
  closed : Nat
  ratio : Nat
deriving DecidableEq

/-- Shape returned by `getSecurityFiles` in src/github-client.js
(`dependabot` is the disjunction of the .yml and .yaml probes). -/
structure SecurityFiles where
  securityMd : Bool
  dependabot : Bool
deriving DecidableEq

/-- Pre-fetched results of the remaining file/directory probes issued through
src/github-client.js; each flag is the disjunction of the `fileExists` /
`directoryExists` calls the corresponding calculator makes. -/
structure FileChecks where
  hasContributing : Bool
  hasTests : Bool
  hasLinter : Bool
  hasDocsFolder : Bool
  hasChangelog : Bool
  hasExamples : Bool
  hasApiDocs : Bool
  hasPRTemplate : Bool
  hasIssueTemplate : Bool
  hasReleaseConfig : Bool
  hasCodeOfConduct : Bool
deriving DecidableEq

/-- The fully pre-fetched signal bundle consumed by the scoring engine. -/
structure SignalBundle where
  repoData : RepoData
  readme : ReadmeInfo
  releases : ReleasesInfo
  tags : TagsInfo
  workflows : WorkflowsInfo
  issueStats : IssueStats
  securityFiles : SecurityFiles
  fileChecks : FileChecks
deriving DecidableEq

/-- The two clock-derived threshold instants that `calculateStabilityScore`
computes from `new Date()` with `setMonth`; on a real clock
`sixMonthsAgo ≤ oneMonthAgo`. -/
structure Clock where
  oneMonthAgo : Int
  sixMonthsAgo : Int
deriving DecidableEq

/-- A `{score, details}` pair returned by one pillar calculator. -/
structure PillarResult (δ : Type) where
  score : Nat
  details : δ
deriving DecidableEq

/-- `!!repoData.description && repoData.description.length > 10` from
`calculateReadabilityScore` (null and the empty string are JS-falsy). -/
def hasDescriptionOf (repoData : RepoData) : Bool :=
  match repoData.description with
  | none => false
  | some d => !(d == "") && decide (d.length > 10)

structure ReadabilityDetails where
  hasReadme : Bool
  readmeLength : Nat
  hasInstallation : Bool
  hasUsage : Bool
  hasDescription : Bool
deriving DecidableEq

/-- `lowerContent.includes('installation') || lowerContent.includes('install')`. -/
def readmeHasInstallation (readme : ReadmeInfo) : Bool :=
  jsIncludes (jsToLower readme.content) "installation" || jsIncludes (jsToLower readme.content) "install"

/-- `lowerContent.includes('usage') || lowerContent.includes('getting started')`. -/
def readmeHasUsage (readme : ReadmeInfo) : Bool :=
  jsIncludes (jsToLower readme.content) "usage" || jsIncludes (jsToLower readme.content) "getting started"

/-- The additive total accumulated in the `score` variable of
`calculateReadabilityScore`, before the final `Math.min(score, 100)`. -/
def readabilityRaw (readme : ReadmeInfo) (repoData : RepoData) : Nat :=
  (if readme.exists_ then
      20 + (if readme.length > 500 then 10 else 0)
         + (if readme.length > 2000 then 10 else 0)
         + (if readmeHasInstallation readme then 15 else 0)
         + (if readmeHasUsage readme then 15 else 0)
    else 0)
  + (if hasDescriptionOf repoData then 30 else 0)

/-- `calculateReadabilityScore` from src/scorer.js.  When the README is
missing, JS leaves `details.hasInstallation` / `details.hasUsage` undefined
(falsy); that is modelled as `false`. -/
def calculateReadabilityScore (readme : ReadmeInfo) (repoData : RepoData) :
    PillarResult ReadabilityDetails :=
  { score := min (readabilityRaw readme repoData) 100
    details :=
      { hasReadme := readme.exists_
        readmeLength := readme.length
        hasInstallation := readme.exists_ && readmeHasInstallation readme
        hasUsage := readme.exists_ && readmeHasUsage readme
        hasDescription := hasDescriptionOf repoData } }

structure StabilityDetails where
  hasReleases : Bool
  releaseCount : Nat
  hasTags : Bool
  tagCount : Nat
  latestRelease : Option String
  hasWorkflows : Bool
  workflowCount : Nat
  lastCommit : Int
  isRecentlyActive : Bool
deriving DecidableEq

/-- The last-push recency branch of `calculateStabilityScore`: `+30` within
one month, else `+20` within six months, else `+5`. -/
def recencyPoints (pushed_at : Int) (clock : Clock) : Nat :=
  if pushed_at > clock.oneMonthAgo then 30
  else if pushed_at > clock.sixMonthsAgo then 20
  else 5

/-- The additive total accumulated in the `score` variable of
`calculateStabilityScore`, before the final `Math.min(score, 100)`. -/
def stabilityRaw (releases : ReleasesInfo) (tags : TagsInfo)
    (workflows : WorkflowsInfo) (repoData : RepoData) (clock : Clock) : Nat :=
  (if releases.exists_ || tags.exists_ then
      25 + (if releases.count > 5 || tags.count > 5 then 15 else 0)
    else 0)
  + (if workflows.exists_ then 20 + (if workflows.count > 1 then 10 else 0) else 0)
  + recencyPoints repoData.pushed_at clock

/-- `calculateStabilityScore` from src/scorer.js. -/
def calculateStabilityScore (releases : ReleasesInfo) (tags : TagsInfo)
    (workflows : WorkflowsInfo) (repoData : RepoData) (clock : Clock) :
    PillarResult StabilityDetails :=
  { score := min (stabilityRaw releases tags workflows repoData clock) 100
    details :=
      { hasReleases := releases.exists_
        releaseCount := releases.count
        hasTags := tags.exists_
        tagCount := tags.count
        latestRelease := releases.latest
        hasWorkflows := workflows.exists_
        workflowCount := workflows.count
        lastCommit := repoData.pushed_at
        isRecentlyActive := decide (repoData.pushed_at > clock.sixMonthsAgo) } }

structure SecurityDetails where
  licenseType : String
  licenseKey : String
  licenseRisk : String
  licenseScore : Nat
  hasSecurityMd : Bool
  hasDependabot : Bool
deriving DecidableEq

/-- The additive total accumulated in the `score` variable of
`calculateSecurityScore`, before the final `Math.min(score, 100)`:
`Math.round(licenseRisk.score * 0.4)` plus the two file bonuses. -/
def securityRaw (securityFiles : SecurityFiles) (repoData : RepoData) : Nat :=
  (jsRound (((getLicenseRisk repoData.license_spdx_id).score : ℚ) * 0.4)).toNat
  + (if securityFiles.securityMd then 30 else 0)
  + (if securityFiles.dependabot then 30 else 0)

/-- `calculateSecurityScore` from src/scorer.js.  `licenseType` is
`repoData.license?.name || 'No License'` and `licenseKey` is
`licenseKey || 'none'` (JS `||`, so the empty string also falls back). -/
def calculateSecurityScore (securityFiles : SecurityFiles) (repoData : RepoData) :
    PillarResult SecurityDetails :=
  let licenseRisk := getLicenseRisk repoData.license_spdx_id
  { score := min (securityRaw securityFiles repoData) 100
    details :=
      { licenseType :=
          match repoData.license_name with
          | none => "No License"
          | some n => if n = "" then "No License" else n
        licenseKey :=
          match repoData.license_spdx_id with
          | none => "none"
          | some k => if k = "" then "none" else k
        licenseRisk := licenseRisk.risk
        licenseScore := licenseRisk.score
        hasSecurityMd := securityFiles.securityMd
        hasDependabot := securityFiles.dependabot } }

structure CommunityDetails where
  stars : Nat
  forks : Nat
  subscribers : Nat
  openIssues : Nat
  closedIssues : Nat
  issueCloseRatio : Nat
  hasContributing : Bool
deriving DecidableEq

/-- The additive total accumulated in the `score` variable of
`calculateCommunityScore`, before the final `Math.min(score, 100)`; the star
and issue-ratio brackets are if/else chains (first matching bracket only). -/
def communityRaw (repoData : RepoData) (issueStats : IssueStats)
    (fileChecks : FileChecks) : Nat :=
  (if repoData.stargazers_count ≥ 1000 then 40
   else if repoData.stargazers_count ≥ 100 then 30
   else if repoData.stargazers_count ≥ 50 then 20
   else if repoData.stargazers_count ≥ 10 then 10
   else 0)
  + (if issueStats.ratio ≥ 70 then 30
     else if issueStats.ratio ≥ 50 then 20
     else if issueStats.ratio ≥ 30 then 10
     else 0)
  + (if fileChecks.hasContributing then 30 else 0)

/-- `calculateCommunityScore` from src/scorer.js. -/
def calculateCommunityScore (repoData : RepoData) (issueStats : IssueStats)
    (fileChecks : FileChecks) : PillarResult CommunityDetails :=
  { score := min (communityRaw repoData issueStats fileChecks) 100
    details :=
      { stars := repoData.stargazers_count
        forks := repoData.forks_count
        subscribers := repoData.subscribers_count
        openIssues := issueStats.open_
        closedIssues := issueStats.closed
        issueCloseRatio := issueStats.ratio
        hasContributing := fileChecks.hasContributing } }

structure MaintainabilityDetails where
  hasTests : Bool
  hasLinter : Bool
deriving DecidableEq

/-- The additive total accumulated in the `score` variable of
`calculateMaintainabilityScore`, before the final `Math.min(score, 100)`. -/
def maintainabilityRaw (fileChecks : FileChecks) : Nat :=
  (if fileChecks.hasTests then 50 else 0) + (if fileChecks.hasLinter then 50 else 0)

/-- `calculateMaintainabilityScore` from src/scorer.js. -/
def calculateMaintainabilityScore (fileChecks : FileChecks) :
    PillarResult MaintainabilityDetails :=
  { score := min (maintainabilityRaw fileChecks) 100
    details := { hasTests := fileChecks.hasTests, hasLinter := fileChecks.hasLinter } }

structure DocumentationDetails where
  hasDocsFolder : Bool
  hasChangelog : Bool
  hasExamples : Bool
  hasWiki : Bool
  hasApiDocs : Bool
deriving DecidableEq

/-- The additive total accumulated in the `score` variable of
`calculateDocumentationScore`, before the final `Math.min(score, 100)`. -/
def documentationRaw (fileChecks : FileChecks) (repoData : RepoData) : Nat :=
  (if fileChecks.hasDocsFolder then 25 else 0)
  + (if fileChecks.hasChangelog then 25 else 0)
  + (if fileChecks.hasExamples then 25 else 0)
  + (if repoData.has_wiki then 15 else 0)
  + (if fileChecks.hasApiDocs then 10 else 0)

/-- `calculateDocumentationScore` from src/scorer.js. -/
def calculateDocumentationScore (fileChecks : FileChecks) (repoData : RepoData) :
    PillarResult DocumentationDetails :=
  { score := min (documentationRaw fileChecks repoData) 100
    details :=
      { hasDocsFolder := fileChecks.hasDocsFolder
        hasChangelog := fileChecks.hasChangelog
        hasExamples := fileChecks.hasExamples
        hasWiki := repoData.has_wiki
        hasApiDocs := fileChecks.hasApiDocs } }

structure AutomationDetails where
  workflowCount : Nat
  hasPRTemplate : Bool
  hasIssueTemplate : Bool
  hasReleaseConfig : Bool
  hasCodeOfConduct : Bool
deriving DecidableEq

/-- The additive total accumulated in the `score` variable of
`calculateAutomationScore`, before the final `Math.min(score, 100)`. -/
def automationRaw (workflows : WorkflowsInfo) (fileChecks : FileChecks) : Nat :=
  (if workflows.count ≥ 3 then 30 else if workflows.count ≥ 1 then 20 else 0)
  + (if fileChecks.hasPRTemplate then 20 else 0)
  + (if fileChecks.hasIssueTemplate then 20 else 0)
  + (if fileChecks.hasReleaseConfig then 15 else 0)
  + (if fileChecks.hasCodeOfConduct then 15 else 0)

/-- `calculateAutomationScore` from src/scorer.js. -/
def calculateAutomationScore (workflows : WorkflowsInfo) (fileChecks : FileChecks) :
    PillarResult AutomationDetails :=
  { score := min (automationRaw workflows fileChecks) 100
    details :=
      { workflowCount := workflows.count
        hasPRTemplate := fileChecks.hasPRTemplate
        hasIssueTemplate := fileChecks.hasIssueTemplate
        hasReleaseConfig := fileChecks.hasReleaseConfig
        hasCodeOfConduct := fileChecks.hasCodeOfConduct } }

structure Recommendation where
  priority : String
  category : String
  issue : String
  action : String
  impact : String
deriving DecidableEq

/-- The `priorityOrder` object in `generateRecommendations`; only the three
literal priority strings below ever occur in generated recommendations. -/
def priorityOrder (p : String) : Nat :=
  if p == "🔴 Critical" then 0
  else if p == "🟡 Medium" then 1
  else 2

/-- Comparator used for the final sort: the JS comparator
`priorityOrder[a.priority] - priorityOrder[b.priority]` keeps `a` before `b`
exactly when this relation holds. -/
def recLE (a b : Recommendation) : Bool :=
  decide (priorityOrder a.priority ≤ priorityOrder b.priority)

/-- A single conditional `recommendations.push(...)`. -/
def recIf (c : Bool) (r : Recommendation) : List Recommendation :=
  if c then [r] else []

/-- The pillar map assembled by `calculateHealthScore` and consumed by
`generateRecommendations`: each entry is `{score, weight, details}`. -/
structure WeightedPillar (δ : Type) where
  score : Nat
  weight : String
  details : δ
deriving DecidableEq

structure Pillars where
  readability : WeightedPillar ReadabilityDetails
  stability : WeightedPillar StabilityDetails
  security : WeightedPillar SecurityDetails
  community : WeightedPillar CommunityDetails
  maintainability : WeightedPillar MaintainabilityDetails
  documentation : WeightedPillar DocumentationDetails
  automation : WeightedPillar AutomationDetails
deriving DecidableEq

/-- The recommendation list of `generateRecommendations` as generated, in
source order (Readability, Security, Maintainability, Documentation,
Automation, Community, Stability), before the final priority sort. -/
def genRecommendations (p : Pillars) : List Recommendation :=
  (if !p.readability.details.hasReadme then
      [{ priority := "🔴 Critical", category := "Readability",
         issue := "Missing README.md",
         action := "Create a README.md file with project description, installation, and usage instructions.",
         impact := "+20 points" }]
    else
      recIf (!p.readability.details.hasInstallation)
        { priority := "🟡 Medium", category := "Readability",
          issue := "Missing installation instructions",
          action := "Add an \"Installation\" section to your README with setup steps.",
          impact := "+15 points" }
      ++ recIf (!p.readability.details.hasUsage)
        { priority := "🟡 Medium", category := "Readability",
          issue := "Missing usage documentation",
          action := "Add a \"Usage\" or \"Getting Started\" section with examples.",
          impact := "+15 points" })
  ++ recIf (!p.readability.details.hasDescription)
      { priority := "🟡 Medium", category := "Readability",
        issue := "Missing repository description",
        action := "Add a description in the repository settings (About section).",
        impact := "+30 points" }
  ++ recIf (!p.security.details.hasSecurityMd)
      { priority := "🔴 Critical", category := "Security",
        issue := "Missing SECURITY.md",
        action := "Create SECURITY.md with vulnerability reporting guidelines.",
        impact := "+30 points" }
  ++ recIf (!p.security.details.hasDependabot)
      { priority := "🟡 Medium", category := "Security",
        issue := "Dependabot not configured",
        action := "Enable Dependabot by adding .github/dependabot.yml for automatic security updates.",
        impact := "+30 points" }
  ++ recIf (jsIncludes p.security.details.licenseRisk "High")
      { priority := "🔴 Critical", category := "Security",
        issue := "No license or restrictive license",
        action := "Add an open-source license (MIT, Apache-2.0 recommended).",
        impact := "+40 points" }
  ++ recIf (!p.maintainability.details.hasTests)
      { priority := "🔴 Critical", category := "Maintainability",
        issue := "No tests detected",
        action := "Add a test/ or __tests__/ directory with unit tests.",
        impact := "+50 points" }
  ++ recIf (!p.maintainability.details.hasLinter)
      { priority := "🟡 Medium", category := "Maintainability",
        issue := "No linter configuration",
        action := "Add .eslintrc, .prettierrc, or biome.json for code quality.",
        impact := "+50 points" }
  ++ recIf (!p.documentation.details.hasDocsFolder)
      { priority := "🟡 Medium", category := "Documentation",
        issue := "No docs/ folder",
        action := "Create a docs/ directory with detailed documentation.",
        impact := "+25 points" }
  ++ recIf (!p.documentation.details.hasChangelog)
      { priority := "🟡 Medium", category := "Documentation",
        issue := "No CHANGELOG.md",
        action := "Add CHANGELOG.md to track version history and changes.",
        impact := "+25 points" }
  ++ recIf (!p.documentation.details.hasExamples)
      { priority := "🟢 Nice-to-have", category := "Documentation",
        issue := "No examples/ folder",
        action := "Add an examples/ directory with usage examples.",
        impact := "+25 points" }
  ++ recIf (!p.automation.details.hasPRTemplate)
      { priority := "🟢 Nice-to-have", category := "Automation",
        issue := "No PR template",
        action := "Create .github/PULL_REQUEST_TEMPLATE.md for consistent PRs.",
        impact := "+20 points" }
  ++ recIf (!p.automation.details.hasIssueTemplate)
      { priority := "🟢 Nice-to-have", category := "Automation",
        issue := "No issue templates",
        action := "Add .github/ISSUE_TEMPLATE/ with bug and feature templates.",
        impact := "+20 points" }
  ++ recIf (!p.automation.details.hasCodeOfConduct)
      { priority := "🟢 Nice-to-have", category := "Automation",
        issue := "No Code of Conduct",
        action := "Add CODE_OF_CONDUCT.md for community guidelines.",
        impact := "+15 points" }
  ++ recIf (!p.community.details.hasContributing)
      { priority := "🟡 Medium", category := "Community",
        issue := "No CONTRIBUTING.md",
        action := "Create CONTRIBUTING.md with contribution guidelines.",
        impact := "+30 points" }
  ++ recIf (!p.stability.details.hasReleases && !p.stability.details.hasTags)
      { priority := "🟡 Medium", category := "Stability",
        issue := "No releases or tags",
        action := "Create GitHub releases with semantic versioning.",
        impact := "+25 points" }

/-- `generateRecommendations` from src/scorer.js: the generated list followed
by `recommendations.sort(...)`.  `Array.prototype.sort` is stable (ES2019),
which `List.mergeSort` models. -/
def generateRecommendations (p : Pillars) : List Recommendation :=
  (genRecommendations p).mergeSort recLE

/-- The weighted total of `calculateHealthScore`:
`Math.round` of the weighted sum of the seven pillar scores. -/
def totalScoreOf (readability stability security community maintainability
    documentation automation : Nat) : ℤ :=
  jsRound ((readability : ℚ) * 0.15 + (stability : ℚ) * 0.15
    + (security : ℚ) * 0.15 + (community : ℚ) * 0.10
    + (maintainability : ℚ) * 0.15 + (documentation : ℚ) * 0.15
    + (automation : ℚ) * 0.15)

/-- The grade cascade of `calculateHealthScore`. -/
def gradeOf (totalScore : ℤ) : String :=
  if totalScore ≥ 90 then "A+"
  else if totalScore ≥ 80 then "A"
  else if totalScore ≥ 70 then "B"
  else if totalScore ≥ 60 then "C"
  else if totalScore ≥ 50 then "D"
  else "F"

/-- The risk-level cascade of `calculateHealthScore`. -/
def riskLevelOf (totalScore : ℤ) : String :=
  if totalScore ≥ 80 then "🟢 Low Risk"
  else if totalScore ≥ 50 then "🟡 Medium Risk"
  else "🔴 High Risk"

/-- The `pillars` object assembled inside `calculateHealthScore`. -/
def pillarsOf (b : SignalBundle) (clock : Clock) : Pillars :=
  let readability := calculateReadabilityScore b.readme b.repoData
  let stability := calculateStabilityScore b.releases b.tags b.workflows b.repoData clock
  let security := calculateSecurityScore b.securityFiles b.repoData
  let community := calculateCommunityScore b.repoData b.issueStats b.fileChecks
  let maintainability := calculateMaintainabilityScore b.fileChecks
  let documentation := calculateDocumentationScore b.fileChecks b.repoData
  let automation := calculateAutomationScore b.workflows b.fileChecks
  { readability := { score := readability.score, weight := "15%", details := readability.details }
    stability := { score := stability.score, weight := "15%", details := stability.details }
    security := { score := security.score, weight := "15%", details := security.details }
    community := { score := community.score, weight := "10%", details := community.details }
    maintainability := { score := maintainability.score, weight := "15%", details := maintainability.details }
    documentation := { score := documentation.score, weight := "15%", details := documentation.details }
    automation := { score := automation.score, weight := "15%", details := automation.details } }

structure HealthReport where
  totalScore : ℤ
  grade : String
  riskLevel : String
  pillars : Pillars
  recommendations : List Recommendation
  recommendationCount : Nat
deriving DecidableEq

/-- `calculateHealthScore` from src/scorer.js, as a pure function of the
pre-fetched signal bundle and of the clock thresholds read inside
`calculateStabilityScore`. -/
def calculateHealthScore (b : SignalBundle) (clock : Clock) : HealthReport :=
  let pillars := pillarsOf b clock
  let totalScore := totalScoreOf pillars.readability.score pillars.stability.score
    pillars.security.score pillars.community.score pillars.maintainability.score
    pillars.documentation.score pillars.automation.score
  let recommendations := generateRecommendations pillars
  { totalScore := totalScore
    grade := gradeOf totalScore
    riskLevel := riskLevelOf totalScore
    pillars := pillars
    recommendations := recommendations
    recommendationCount := recommendations.length }

/-- Rank of a grade in the order F < D < C < B < A < A+. -/
def gradeRank (g : String) : Nat :=
  if g == "F" then 0
  else if g == "D" then 1
  else if g == "C" then 2
  else if g == "B" then 3
  else if g == "A" then 4
  else 5

/-- Rank of a risk tier in the order High < Medium < Low. -/
def riskRank (r : String) : Nat :=
  if r == "🔴 High Risk" then 0
  else if r == "🟡 Medium Risk" then 1
  else 2

/-- The Critical recommendation emitted when the README is missing. -/
def missingReadmeRec : Recommendation :=
  { priority := "🔴 Critical", category := "Readability",
    issue := "Missing README.md",
    action := "Create a README.md file with project description, installation, and usage instructions.",
    impact := "+20 points" }

/-- The Medium recommendation emitted when the repository description is
missing. -/
def missingDescriptionRec : Recommendation :=
  { priority := "🟡 Medium", category := "Readability",
    issue := "Missing repository description",
    action := "Add a description in the repository settings (About section).",
    impact := "+30 points" }

/-- A concrete bundle with every probe missing and a last push at instant 5,
used as test input. -/
def minimalBundle : SignalBundle where
  repoData :=
    { description := none
      license_spdx_id := none
      license_name := none
      pushed_at := 5
      stargazers_count := 0
      forks_count := 0
      subscribers_count := 0
      has_wiki := false }
  readme := { exists_ := false, content := "", length := 0 }
  releases := { exists_ := false, count := 0, latest := none }
  tags := { exists_ := false, count := 0 }
  workflows := { exists_ := false, count := 0 }
  issueStats := { open_ := 0, closed := 0, ratio := 0 }
  securityFiles := { securityMd := false, dependabot := false }
  fileChecks :=
    { hasContributing := false
      hasTests := false
      hasLinter := false
      hasDocsFolder := false
      hasChangelog := false
      hasExamples := false
      hasApiDocs := false
      hasPRTemplate := false
      hasIssueTemplate := false
      hasReleaseConfig := false
      hasCodeOfConduct := false }

/-- `minimalBundle` with a GPL-3.0 license and SECURITY.md present (dependabot
still absent), used as test input. -/
def gplBundle : SignalBundle :=
  { minimalBundle with
    repoData := { minimalBundle.repoData with license_spdx_id := some "GPL-3.0" }
    securityFiles := { securityMd := true, dependabot := false } }

/-! ## Bound lemmas -/

theorem jsRound_nonneg {q : ℚ} (h : 0 ≤ q) : 0 ≤ jsRound q := by
  unfold jsRound
  exact Int.le_floor.mpr (by push_cast; linarith)

theorem jsRound_le {q : ℚ} {n : ℤ} (h : q ≤ (n : ℚ)) : jsRound q ≤ n := by
  unfold jsRound
  have h2 := Int.floor_lt.mpr (show q + 1/2 < ((n + 1 : ℤ) : ℚ) by push_cast; linarith)
  omega

theorem LICENSE_SCORES_getD_le (s : String) : (LICENSE_SCORES s).getD 50 ≤ 100 := by
  unfold LICENSE_SCORES
  split <;> simp

theorem bandLicense_score (s : Nat) : (bandLicense s).score = s := by
  unfold bandLicense
  split_ifs <;> rfl

theorem getLicenseRisk_score_le (k : Option String) : (getLicenseRisk k).score ≤ 100 := by
  unfold getLicenseRisk
  rcases k with _ | k
  · simp
  · by_cases hk : k = ""
    · simp [hk]
    · simpa [hk, bandLicense_score] using LICENSE_SCORES_getD_le (jsToLower k)

theorem readabilityRaw_le (readme : ReadmeInfo) (repoData : RepoData) :
    readabilityRaw readme repoData ≤ 100 := by
  unfold readabilityRaw
  split_ifs <;> omega

theorem recencyPoints_le (p : Int) (clock : Clock) : recencyPoints p clock ≤ 30 := by
  unfold recencyPoints
  split_ifs <;> omega

theorem recencyPoints_ge (p : Int) (clock : Clock) : 5 ≤ recencyPoints p clock := by
  unfold recencyPoints
  split_ifs <;> omega

theorem stabilityRaw_le (releases : ReleasesInfo) (tags : TagsInfo)
    (workflows : WorkflowsInfo) (repoData : RepoData) (clock : Clock) :
    stabilityRaw releases tags workflows repoData clock ≤ 100 := by
  unfold stabilityRaw
  have := recencyPoints_le repoData.pushed_at clock
  split_ifs <;> omega

theorem securityRaw_le (securityFiles : SecurityFiles) (repoData : RepoData) :
    securityRaw securityFiles repoData ≤ 100 := by
  unfold securityRaw
  have h1 : ((getLicenseRisk repoData.license_spdx_id).score : ℚ) ≤ ((100 : ℤ) : ℚ) := by
    exact_mod_cast getLicenseRisk_score_le repoData.license_spdx_id
  have h2 : jsRound (((getLicenseRisk repoData.license_spdx_id).score : ℚ) * 0.4) ≤ 40 := by
    apply jsRound_le
    push_cast
    push_cast at h1
    linarith
  split_ifs <;> omega

theorem communityRaw_le (repoData : RepoData) (issueStats : IssueStats)
    (fileChecks : FileChecks) : communityRaw repoData issueStats fileChecks ≤ 100 := by
  unfold communityRaw
  split_ifs <;> omega

theorem maintainabilityRaw_le (fileChecks : FileChecks) :
    maintainabilityRaw fileChecks ≤ 100 := by
  unfold maintainabilityRaw
  split_ifs <;> omega

theorem documentationRaw_le (fileChecks : FileChecks) (repoData : RepoData) :
    documentationRaw fileChecks repoData ≤ 100 := by
  unfold documentationRaw
  split_ifs <;> omega

theorem automationRaw_le (workflows : WorkflowsInfo) (fileChecks : FileChecks) :
    automationRaw workflows fileChecks ≤ 100 := by
  unfold automationRaw
  split_ifs <;> omega

theorem totalScoreOf_bounds (r s sec c m d a : Nat) (hr : r ≤ 100) (hs : s ≤ 100)
    (hsec : sec ≤ 100) (hc : c ≤ 100) (hm : m ≤ 100) (hd : d ≤ 100) (ha : a ≤ 100) :
    0 ≤ totalScoreOf r s sec c m d a ∧ totalScoreOf r s sec c m d a ≤ 100 := by
  unfold totalScoreOf
  constructor
  · apply jsRound_nonneg
    positivity
  · apply jsRound_le
    have hr' : (r : ℚ) ≤ 100 := by exact_mod_cast hr
    have hs' : (s : ℚ) ≤ 100 := by exact_mod_cast hs
    have hsec' : (sec : ℚ) ≤ 100 := by exact_mod_cast hsec
    have hc' : (c : ℚ) ≤ 100 := by exact_mod_cast hc
    have hm' : (m : ℚ) ≤ 100 := by exact_mod_cast hm
    have hd' : (d : ℚ) ≤ 100 := by exact_mod_cast hd
    have ha' : (a : ℚ) ≤ 100 := by exact_mod_cast ha
    push_cast
    linarith

/-! ## Claims -/

/-- C1: for every valid signal bundle (and any clock reading), each of the
seven pillar scores of the produced report lies in [0,100] (pillar scores are
naturals, so nonnegativity is by type), and the aggregated `totalScore` also
lies in [0,100]. -/
theorem scores_within_bounds (b : SignalBundle) (clock : Clock) :
    (calculateHealthScore b clock).pillars.readability.score ≤ 100 ∧
    (calculateHealthScore b clock).pillars.stability.score ≤ 100 ∧
    (calculateHealthScore b clock).pillars.security.score ≤ 100 ∧
    (calculateHealthScore b clock).pillars.community.score ≤ 100 ∧
    (calculateHealthScore b clock).pillars.maintainability.score ≤ 100 ∧
    (calculateHealthScore b clock).pillars.documentation.score ≤ 100 ∧
    (calculateHealthScore b clock).pillars.automation.score ≤ 100 ∧
    0 ≤ (calculateHealthScore b clock).totalScore ∧
    (calculateHealthScore b clock).totalScore ≤ 100 :=
  ⟨Nat.min_le_right _ _, Nat.min_le_right _ _, Nat.min_le_right _ _, Nat.min_le_right _ _,
   Nat.min_le_right _ _, Nat.min_le_right _ _, Nat.min_le_right _ _,
   (totalScoreOf_bounds _ _ _ _ _ _ _ (Nat.min_le_right _ _) (Nat.min_le_right _ _)
     (Nat.min_le_right _ _) (Nat.min_le_right _ _) (Nat.min_le_right _ _)
     (Nat.min_le_right _ _) (Nat.min_le_right _ _)).1,
   (totalScoreOf_bounds _ _ _ _ _ _ _ (Nat.min_le_right _ _) (Nat.min_le_right _ _)
     (Nat.min_le_right _ _) (Nat.min_le_right _ _) (Nat.min_le_right _ _)
     (Nat.min_le_right _ _) (Nat.min_le_right _ _)).2⟩

/-- C9: in every pillar calculator the raw additive sum accumulated before the
final `Math.min(score, 100)` never exceeds 100, so the clamp is a no-op and
the returned pillar score equals the unclamped sum. -/
theorem raw_sums_never_exceed_100 (b : SignalBundle) (clock : Clock) :
    (readabilityRaw b.readme b.repoData ≤ 100 ∧
      (calculateReadabilityScore b.readme b.repoData).score = readabilityRaw b.readme b.repoData) ∧
    (stabilityRaw b.releases b.tags b.workflows b.repoData clock ≤ 100 ∧
      (calculateStabilityScore b.releases b.tags b.workflows b.repoData clock).score
        = stabilityRaw b.releases b.tags b.workflows b.repoData clock) ∧
    (securityRaw b.securityFiles b.repoData ≤ 100 ∧
      (calculateSecurityScore b.securityFiles b.repoData).score = securityRaw b.securityFiles b.repoData) ∧
    (communityRaw b.repoData b.issueStats b.fileChecks ≤ 100 ∧
      (calculateCommunityScore b.repoData b.issueStats b.fileChecks).score
        = communityRaw b.repoData b.issueStats b.fileChecks) ∧
    (maintainabilityRaw b.fileChecks ≤ 100 ∧
      (calculateMaintainabilityScore b.fileChecks).score = maintainabilityRaw b.fileChecks) ∧
    (documentationRaw b.fileChecks b.repoData ≤ 100 ∧
      (calculateDocumentationScore b.fileChecks b.repoData).score = documentationRaw b.fileChecks b.repoData) ∧
    (automationRaw b.workflows b.fileChecks ≤ 100 ∧
      (calculateAutomationScore b.workflows b.fileChecks).score = automationRaw b.workflows b.fileChecks) :=
  ⟨⟨readabilityRaw_le _ _, Nat.min_eq_left (readabilityRaw_le _ _)⟩,
   ⟨stabilityRaw_le _ _ _ _ _, Nat.min_eq_left (stabilityRaw_le _ _ _ _ _)⟩,
   ⟨securityRaw_le _ _, Nat.min_eq_left (securityRaw_le _ _)⟩,
   ⟨communityRaw_le _ _ _, Nat.min_eq_left (communityRaw_le _ _ _)⟩,
   ⟨maintainabilityRaw_le _, Nat.min_eq_left (maintainabilityRaw_le _)⟩,
   ⟨documentationRaw_le _ _, Nat.min_eq_left (documentationRaw_le _ _)⟩,
   ⟨automationRaw_le _ _, Nat.min_eq_left (automationRaw_le _ _)⟩⟩

/-- C10: the Stability pillar score is always at least 5, because the
last-push recency branch contributes 30, 20 or 5 points unconditionally. -/
theorem stability_score_at_least_5 (b : SignalBundle) (clock : Clock) :
    5 ≤ (calculateHealthScore b clock).pillars.stability.score := by
  have h1 : 5 ≤ stabilityRaw b.releases b.tags b.workflows b.repoData clock := by
    unfold stabilityRaw
    have := recencyPoints_ge b.repoData.pushed_at clock
    omega
  show 5 ≤ min (stabilityRaw b.releases b.tags b.workflows b.repoData clock) 100
  omega

/-- C5: `totalScore` is the round of the weighted sum of the seven pillar
scores with the fixed weights (which sum to exactly 1), and aggregating seven
pillar scores of exactly 80 yields totalScore 80, grade "A" and Low risk. -/
theorem total_score_weighted_round_all80 :
    ((0.15 : ℚ) + 0.15 + 0.15 + 0.10 + 0.15 + 0.15 + 0.15 = 1) ∧
    (∀ (b : SignalBundle) (clock : Clock),
      (calculateHealthScore b clock).totalScore =
        jsRound (((calculateHealthScore b clock).pillars.readability.score : ℚ) * 0.15
          + ((calculateHealthScore b clock).pillars.stability.score : ℚ) * 0.15
          + ((calculateHealthScore b clock).pillars.security.score : ℚ) * 0.15
          + ((calculateHealthScore b clock).pillars.community.score : ℚ) * 0.10
          + ((calculateHealthScore b clock).pillars.maintainability.score : ℚ) * 0.15
          + ((calculateHealthScore b clock).pillars.documentation.score : ℚ) * 0.15
          + ((calculateHealthScore b clock).pillars.automation.score : ℚ) * 0.15)) ∧
    totalScoreOf 80 80 80 80 80 80 80 = 80 ∧
    gradeOf (totalScoreOf 80 80 80 80 80 80 80) = "A" ∧
    riskLevelOf (totalScoreOf 80 80 80 80 80 80 80) = "🟢 Low Risk" := by
  have h80 : totalScoreOf 80 80 80 80 80 80 80 = 80 := by
    unfold totalScoreOf jsRound
    norm_num
  refine ⟨by norm_num, fun b clock => rfl, h80, ?_, ?_⟩
  · rw [h80]; decide
  · rw [h80]; decide

/-- C6: the grade and risk-tier mappings applied to `totalScore` by
`calculateHealthScore` are monotone non-decreasing in `totalScore`. -/
theorem grade_risk_monotone (s t : ℤ) (hst : s ≤ t) :
    gradeRank (gradeOf s) ≤ gradeRank (gradeOf t) ∧
    riskRank (riskLevelOf s) ≤ riskRank (riskLevelOf t) := by
  constructor
  · unfold gradeOf
    split_ifs <;> simp [gradeRank] <;> omega
  · unfold riskLevelOf
    split_ifs <;> simp [riskRank] <;> omega

theorem grade_risk_monotone_witness :
    ((50 : ℤ) ≤ 90) ∧
    (gradeRank (gradeOf 50) ≤ gradeRank (gradeOf 90) ∧
      riskRank (riskLevelOf 50) ≤ riskRank (riskLevelOf 90)) :=
  ⟨by decide, grade_risk_monotone 50 90 (by decide)⟩

/-- C7: with license "GPL-3.0", SECURITY.md present and dependabot absent, the
Security pillar score of the report is round(50 × 0.4) + 30 + 0 = 50. -/
theorem security_gpl3_score_50 (b : SignalBundle) (clock : Clock)
    (h1 : b.repoData.license_spdx_id = some "GPL-3.0")
    (h2 : b.securityFiles.securityMd = true)
    (h3 : b.securityFiles.dependabot = false) :
    (calculateHealthScore b clock).pillars.security.score = 50 := by
  show min (securityRaw b.securityFiles b.repoData) 100 = 50
  unfold securityRaw
  rw [h1, h2, h3]
  have hl : getLicenseRisk (some "GPL-3.0") = { score := 50, risk := "🔴 High (Restrictive)" } := by
    decide
  rw [hl]
  have hr : jsRound ((20 : ℚ)) = 20 := by
    unfold jsRound
    norm_num
  norm_num [hr]
  decide

theorem security_gpl3_score_50_witness :
    (gplBundle.repoData.license_spdx_id = some "GPL-3.0") ∧
    (gplBundle.securityFiles.securityMd = true) ∧
    (gplBundle.securityFiles.dependabot = false) ∧
    (calculateHealthScore gplBundle ⟨0, 0⟩).pillars.security.score = 50 :=
  ⟨rfl, rfl, rfl, security_gpl3_score_50 gplBundle ⟨0, 0⟩ rfl rfl rfl⟩

/-- C3 counterexample: the non-null identifier "zlib" is not a key of the
license table; the classifier resolves it to score 50 but labels it High
(Restrictive), not Medium — 50 falls below the ≥60 Medium band. -/
theorem unknown_license_not_medium_cex :
    (getLicenseRisk (some "zlib")).score = 50 ∧
    (getLicenseRisk (some "zlib")).risk = "🔴 High (Restrictive)" ∧
    (getLicenseRisk (some "zlib")).risk ≠ "🟡 Medium (Copyleft)" ∧
    jsIncludes (getLicenseRisk (some "zlib")).risk "Medium" = false := by
  decide

/-- C3 as amended: every non-null, non-empty license identifier whose
lowercased form is not a key of the license table resolves to score 50 with
the High (Restrictive) risk label. -/
theorem unknown_license_score50_high (s : String) (h1 : s ≠ "")
    (h2 : LICENSE_SCORES (jsToLower s) = none) :
    getLicenseRisk (some s) = { score := 50, risk := "🔴 High (Restrictive)" } := by
  unfold getLicenseRisk bandLicense
  simp [h1, h2]

theorem unknown_license_score50_high_witness :
    ("zlib" ≠ "") ∧ (LICENSE_SCORES (jsToLower "zlib") = none) ∧
    getLicenseRisk (some "zlib") = { score := 50, risk := "🔴 High (Restrictive)" } :=
  ⟨by decide, by decide, unknown_license_score50_high "zlib" (by decide) (by decide)⟩

/-! ## Sorting facts -/

theorem recLE_trans (a b c : Recommendation) : recLE a b → recLE b c → recLE a c := by
  simp only [recLE, decide_eq_true_eq]
  omega

theorem recLE_total (a b : Recommendation) : recLE a b || recLE b a := by
  simp only [recLE, Bool.or_eq_true, decide_eq_true_eq]
  omega

/-- Stability of the modelled sort: filtering by any predicate whose holders
are pairwise `recLE`-comparable-left-to-right (e.g. a fixed priority rank)
commutes with `mergeSort recLE`. -/
theorem filter_mergeSort_of_rank_homogeneous (l : List Recommendation)
    (p : Recommendation → Bool)
    (hp : ∀ x, p x = true → ∀ y, p y = true → recLE x y = true) :
    (l.mergeSort recLE).filter p = l.filter p := by
  have hpw : (l.filter p).Pairwise (fun a b => recLE a b = true) := by
    apply List.pairwise_of_forall_mem_list
    intro a ha b hb
    rw [List.mem_filter] at ha hb
    exact hp a ha.2 b hb.2
  have hsub : List.Sublist (l.filter p) (l.mergeSort recLE) :=
    List.sublist_mergeSort recLE_trans recLE_total hpw (List.filter_sublist l)
  have hid : (l.filter p).filter p = l.filter p := by
    simp [List.filter_filter]
  have hsub2 : List.Sublist (l.filter p) ((l.mergeSort recLE).filter p) :=
    hid ▸ hsub.filter p
  have hlen : ((l.mergeSort recLE).filter p).length = (l.filter p).length :=
    ((List.mergeSort_perm l recLE).filter p).length_eq
  exact (hsub2.eq_of_length hlen.symm).symm

/-- C4: the report's recommendation list is the priority sort of the list
generated in the fixed pillar order (Readability, Security, Maintainability,
Documentation, Automation, Community, Stability); it is sorted by priority
rank, and for every rank the subsequence of that rank is exactly the
generated subsequence — i.e. the sort is stable and ties keep generation
order. -/
theorem recommendations_sorted_stable (b : SignalBundle) (clock : Clock) :
    (calculateHealthScore b clock).recommendations
        = (genRecommendations (pillarsOf b clock)).mergeSort recLE ∧
    (calculateHealthScore b clock).recommendations.Pairwise
        (fun x y => priorityOrder x.priority ≤ priorityOrder y.priority) ∧
    (∀ k : Nat,
      (calculateHealthScore b clock).recommendations.filter
          (fun r => priorityOrder r.priority == k)
        = (genRecommendations (pillarsOf b clock)).filter
            (fun r => priorityOrder r.priority == k)) := by
  refine ⟨rfl, ?_, ?_⟩
  · have h := List.sorted_mergeSort recLE_trans recLE_total
      (genRecommendations (pillarsOf b clock))
    exact h.imp (by intro a b hab; simpa [recLE] using hab)
  · intro k
    apply filter_mergeSort_of_rank_homogeneous
    intro x hx y hy
    rw [beq_iff_eq] at hx hy
    simp [recLE, hx, hy]

theorem filter_recIf (c : Bool) (r : Recommendation) (p : Recommendation → Bool) :
    (recIf c r).filter p = if c && p r then [r] else [] := by
  cases c <;> cases hp : p r <;> simp [recIf, hp]

/-- With the README missing and no usable description, the Readability-category
entries of the generated list are exactly the Missing-README (Critical) and
missing-description (Medium) recommendations. -/
theorem filter_readability_gen (p : Pillars)
    (hr : p.readability.details.hasReadme = false)
    (hd : p.readability.details.hasDescription = false) :
    (genRecommendations p).filter (fun r => r.category == "Readability")
      = [missingReadmeRec, missingDescriptionRec] := by
  simp [genRecommendations, List.filter_append, filter_recIf, hr, hd,
    missingReadmeRec, missingDescriptionRec]

/-- C2 as amended: when the README does not exist and the repository
description is absent, the Readability pillar scores 0, the installation and
usage sub-checks are not evaluated (their detail flags stay falsy), and the
recommendation list contains exactly two Readability entries — Missing
README.md (Critical) and Missing repository description (Medium) — not one
and not three. -/
theorem missing_readme_two_readability_recs (b : SignalBundle) (clock : Clock)
    (h1 : b.readme.exists_ = false) (h2 : b.repoData.description = none) :
    (calculateHealthScore b clock).pillars.readability.score = 0 ∧
    (calculateHealthScore b clock).pillars.readability.details.hasInstallation = false ∧
    (calculateHealthScore b clock).pillars.readability.details.hasUsage = false ∧
    ((calculateHealthScore b clock).recommendations.filter
        (fun r => r.category == "Readability")).Perm
      [missingReadmeRec, missingDescriptionRec] := by
  have hdesc : hasDescriptionOf b.repoData = false := by
    unfold hasDescriptionOf
    rw [h2]
  refine ⟨?_, ?_, ?_, ?_⟩
  · show min (readabilityRaw b.readme b.repoData) 100 = 0
    unfold readabilityRaw
    rw [h1, hdesc]
    simp
  · show (b.readme.exists_ && readmeHasInstallation b.readme) = false
    rw [h1]
    rfl
  · show (b.readme.exists_ && readmeHasUsage b.readme) = false
    rw [h1]
    rfl
  · have hperm : List.Perm
        (((genRecommendations (pillarsOf b clock)).mergeSort recLE).filter
          (fun r => r.category == "Readability"))
        ((genRecommendations (pillarsOf b clock)).filter
          (fun r => r.category == "Readability")) :=
      (List.mergeSort_perm _ recLE).filter _
    have hfg : (genRecommendations (pillarsOf b clock)).filter
        (fun r => r.category == "Readability") = [missingReadmeRec, missingDescriptionRec] :=
      filter_readability_gen _ h1 hdesc
    exact hfg ▸ hperm

theorem missing_readme_two_readability_recs_witness :
    (minimalBundle.readme.exists_ = false) ∧
    (minimalBundle.repoData.description = none) ∧
    ((calculateHealthScore minimalBundle ⟨3, 2⟩).pillars.readability.score = 0 ∧
      (calculateHealthScore minimalBundle ⟨3, 2⟩).pillars.readability.details.hasInstallation = false ∧
      (calculateHealthScore minimalBundle ⟨3, 2⟩).pillars.readability.details.hasUsage = false ∧
      ((calculateHealthScore minimalBundle ⟨3, 2⟩).recommendations.filter
          (fun r => r.category == "Readability")).Perm
        [missingReadmeRec, missingDescriptionRec]) :=
  ⟨rfl, rfl, missing_readme_two_readability_recs minimalBundle ⟨3, 2⟩ rfl rfl⟩

/-- C2 counterexample: on the concrete bundle with no README and no
description, the report's recommendation list has two Readability-category
entries, not exactly one. -/
theorem missing_readme_one_readability_rec_cex :
    (calculateHealthScore minimalBundle ⟨3, 2⟩).pillars.readability.score = 0 ∧
    ((calculateHealthScore minimalBundle ⟨3, 2⟩).recommendations.filter
        (fun r => r.category == "Readability")).length = 2 ∧
    ((calculateHealthScore minimalBundle ⟨3, 2⟩).recommendations.filter
        (fun r => r.category == "Readability")).length ≠ 1 := by
  have hfg : (genRecommendations (pillarsOf minimalBundle ⟨3, 2⟩)).filter
      (fun r => r.category == "Readability") = [missingReadmeRec, missingDescriptionRec] :=
    filter_readability_gen _ rfl rfl
  have hlen : ((calculateHealthScore minimalBundle ⟨3, 2⟩).recommendations.filter
      (fun r => r.category == "Readability")).length = 2 := by
    show (((genRecommendations (pillarsOf minimalBundle ⟨3, 2⟩)).mergeSort recLE).filter
        (fun r => r.category == "Readability")).length = 2
    rw [((List.mergeSort_perm _ recLE).filter _).length_eq, hfg]
    rfl
  exact ⟨by decide, hlen, by omega⟩

/-- Two clock readings whose thresholds are consistent
(`sixMonthsAgo ≤ oneMonthAgo`) and that band the last push identically give
the same Stability pillar result. -/
theorem stability_eq_of_same_band (releases : ReleasesInfo) (tags : TagsInfo)
    (workflows : WorkflowsInfo) (rd : RepoData) (c1 c2 : Clock)
    (hc1 : c1.sixMonthsAgo ≤ c1.oneMonthAgo) (hc2 : c2.sixMonthsAgo ≤ c2.oneMonthAgo)
    (hband : recencyPoints rd.pushed_at c1 = recencyPoints rd.pushed_at c2) :
    calculateStabilityScore releases tags workflows rd c1
      = calculateStabilityScore releases tags workflows rd c2 := by
  have hact : decide (rd.pushed_at > c1.sixMonthsAgo)
      = decide (rd.pushed_at > c2.sixMonthsAgo) := by
    unfold recencyPoints at hband
    split_ifs at hband <;> (simp only [decide_eq_decide]; omega)
  unfold calculateStabilityScore stabilityRaw
  rw [hband, hact]

/-- C8 as amended: the report is a deterministic function of the signal bundle
together with the clock reading consulted by the Stability calculator — it is
not independent of the clock, but two invocations on an identical bundle whose
(consistent) clock readings band the last-push timestamp identically produce
identical reports. -/
theorem report_same_recency_band (b : SignalBundle) (c1 c2 : Clock)
    (hc1 : c1.sixMonthsAgo ≤ c1.oneMonthAgo) (hc2 : c2.sixMonthsAgo ≤ c2.oneMonthAgo)
    (hband : recencyPoints b.repoData.pushed_at c1 = recencyPoints b.repoData.pushed_at c2) :
    calculateHealthScore b c1 = calculateHealthScore b c2 := by
  have hstab := stability_eq_of_same_band b.releases b.tags b.workflows b.repoData c1 c2
    hc1 hc2 hband
  simp only [calculateHealthScore, pillarsOf, hstab]

theorem report_same_recency_band_witness :
    ((2 : ℤ) ≤ 3) ∧ ((1 : ℤ) ≤ 4) ∧
    (recencyPoints minimalBundle.repoData.pushed_at ⟨3, 2⟩
      = recencyPoints minimalBundle.repoData.pushed_at ⟨4, 1⟩) ∧
    calculateHealthScore minimalBundle ⟨3, 2⟩ = calculateHealthScore minimalBundle ⟨4, 1⟩ :=
  ⟨by decide, by decide, by decide,
   report_same_recency_band minimalBundle ⟨3, 2⟩ ⟨4, 1⟩ (by decide) (by decide) (by decide)⟩

/-- C8 counterexample: on an identical bundle, two invocations with different
clock readings produce different reports — the last push (instant 5) is within
one month for the first reading (+30) but only within six months for the
second (+20) — so the output does depend on something outside the bundle. -/
theorem clock_dependence_cex :
    calculateHealthScore minimalBundle ⟨3, 2⟩ ≠ calculateHealthScore minimalBundle ⟨7, 2⟩ := by
  intro h
  have h1 : (calculateHealthScore minimalBundle ⟨3, 2⟩).pillars.stability.score = 30 := by
    decide
  have h2 : (calculateHealthScore minimalBundle ⟨7, 2⟩).pillars.stability.score = 20 := by
    decide
  rw [h] at h1
  omega

end HealthAnalyzer
